import Mathlib

set_option maxRecDepth 8192

/-!
Shallow embedding of the server lifecycle manager in `src/server_manager.py`
(class `MinecraftServerManager`), together with proofs about the claims of
the specification.  Python dictionaries are modelled as insertion-ordered
association lists (`dictInsert` replaces the value of an existing key in
place, otherwise appends, exactly like `d[k] = v`); Python strings are
modelled as `String` / `List Char`; Python ints as `Int`; the float
timestamps produced by `time.time()` as `Rat` (IEEE doubles embed exactly
into the rationals, and `json.dump`/`json.load` round-trip them exactly).
External collaborators (the artifact download, the spawned OS process) are
modelled as explicit outcome parameters, as the spec directs.
-/

/- Status strings, from the `ServerStatus` enum (server_manager.py lines 20-26);
the dataclass stores the `.value` strings. -/
namespace ServerStatus

def STOPPED : String := "stopped"

def STARTING : String := "starting"

def RUNNING : String := "running"

def STOPPING : String := "stopping"

def CRASHED : String := "crashed"

def ERROR : String := "error"

end ServerStatus

/-- The `ServerConfig` dataclass (server_manager.py lines 28-40): one
descriptor per named server, with the same fields and defaults. -/
structure ServerConfig where
  name : String
  version : String
  memory : Int
  port : Int := 25565
  modpack_url : Option String := none
  server_file_url : Option String := none
  status : String := ServerStatus.STOPPED
  pid : Option Int := none
  last_started : Option Rat := none
  restart_count : Int := 0
  crash_count : Int := 0
deriving DecidableEq, Repr

/-- Lookup in an insertion-ordered association list (Python `d[k]` / `k in d`). -/
def alookup {α β : Type} [DecidableEq α] : List (α × β) → α → Option β
  | [], _ => none
  | e :: rest, k => if e.1 = k then some e.2 else alookup rest k

/-- The key sequence of an association list (Python `d.keys()`). -/
def akeys {α β : Type} (l : List (α × β)) : List α := l.map Prod.fst

/-- Python dict assignment `d[k] = v`: replaces the value at the first
occurrence of `k` keeping its position, otherwise appends `(k, v)`. -/
def dictInsert {α β : Type} [DecidableEq α] : List (α × β) → α → β → List (α × β)
  | [], k, v => [(k, v)]
  | e :: rest, k, v => if e.1 = k then (k, v) :: rest else e :: dictInsert rest k v

/-- Membership test on the port table (Python `port in self.allocated_ports`). -/
def claimed (tbl : List (Int × String)) (p : Int) : Bool :=
  tbl.any (fun e => e.1 == p)

/-- The loop of `allocate_port` (server_manager.py lines 88-92): scan ports
upward from `p`, `k` ports remaining; return the first one not claimed. -/
def allocFrom (tbl : List (Int × String)) : Int → Nat → Option Int
  | _, 0 => none
  | p, Nat.succ k => if claimed tbl p then allocFrom tbl (p + 1) k else some p

/-- `allocate_port` (server_manager.py lines 88-92): iterate over
`range(port_min, port_max + 1)` and return the first port not in
`self.allocated_ports`; `None` when the loop finishes. -/
def allocate_port (pmin pmax : Int) (tbl : List (Int × String)) : Option Int :=
  allocFrom tbl pmin (pmax + 1 - pmin).toNat

/-- `release_port` (server_manager.py lines 94-96): `if port in
self.allocated_ports: del self.allocated_ports[port]`. -/
def release_port (tbl : List (Int × String)) (p : Int) : List (Int × String) :=
  if claimed tbl p then tbl.filter (fun e => e.1 != p) else tbl

/-- A line of a `server.properties` file, as a character sequence. -/
abbrev Line := List Char

/-- Notation-free shorthand for `String.toList`, used to write concrete
property-file lines. -/
def str2l (s : String) : Line := s.toList

/-- Python `str.strip()`: remove leading and trailing whitespace. -/
def pstrip (l : Line) : Line :=
  ((l.dropWhile Char.isWhitespace).reverse.dropWhile Char.isWhitespace).reverse

/-- Python `line.split('=', 1)` when `'='` is present: the part before the
first `'='` and the part after it. -/
def splitEq1 : Line → Line × Line
  | [] => ([], [])
  | c :: rest =>
    if c = '=' then ([], rest)
    else
      let r := splitEq1 rest
      (c :: r.1, r.2)

/-- Does the line contain an `'='` (Python `'=' in line`)? -/
def containsEq (l : Line) : Bool := l.any (fun c => c == '=')

/-- Does the line start with `'#'` (Python `line.startswith('#')`)? -/
def startsWithHash : Line → Bool
  | [] => false
  | c :: _ => c == '#'

/-- One iteration of the read loop of `update_server_properties`
(server_manager.py lines 110-114): strip the line; if it contains `'='` and
does not start with `'#'`, split at the first `'='` into key and value. -/
def parsePropLine (l : Line) : Option (Line × Line) :=
  let s := pstrip l
  if containsEq s && !startsWithHash s then some (splitEq1 s) else none

/-- The `properties` dict built by the read loop of
`update_server_properties` (server_manager.py lines 108-114): fold the
parsed assignments into a Python dict. -/
def parseProps (lines : List Line) : List (Line × Line) :=
  lines.foldl
    (fun props l =>
      match parsePropLine l with
      | some kv => dictInsert props kv.1 kv.2
      | none => props)
    []

/-- The write loop of `update_server_properties` (server_manager.py lines
118-120): one `key=value` line per dict entry, in dict order. -/
def writeProps (props : List (Line × Line)) : List Line :=
  props.map (fun e => e.1 ++ '=' :: e.2)

/-- The manager state touched by the operations under verification
(`MinecraftServerManager`, server_manager.py lines 42-60): the descriptor
dict `self.servers`, the port table `self.allocated_ports`, the per-server
`server.properties` files (keyed by server name; a key being present means
the file exists), the value persisted by the last `save_server_states`
(`None` before the first save), and the configuration scalars. -/
structure MState where
  servers : List (String × ServerConfig)
  allocated_ports : List (Int × String)
  props_files : List (String × List Line)
  saved_states : Option (List (String × ServerConfig))
  port_min : Int
  port_max : Int
  max_concurrent : Int
  default_memory : Int
deriving DecidableEq, Repr

/-- `save_server_states` (server_manager.py lines 82-86), at the level of
the persisted value: serialize every descriptor and write the result over
the state file.  The text-level write discipline (open for write, then
dump) is modelled separately by `save_observable_contents`. -/
def save_server_states (st : MState) : MState :=
  { st with saved_states := some st.servers }

/-- `len([s for s in self.servers.values() if s.status == ServerStatus.RUNNING.value])`
(server_manager.py line 130). -/
def runningCount (st : MState) : Int :=
  ((st.servers.filter (fun e => e.2.status == ServerStatus.RUNNING)).length : Int)

/-- `update_server_properties` (server_manager.py lines 98-122): fail when
the name is not a key of `self.servers`; fail when the properties file does
not exist; otherwise parse the file into the `properties` dict, assign
`properties[property_name] = value`, and rewrite the file as one
`key=value` line per entry. -/
def update_server_properties (st : MState) (name property_name value : String) :
    MState × Bool :=
  if (alookup st.servers name).isSome then
    match alookup st.props_files name with
    | none => (st, false)
    | some lines =>
      let props := dictInsert (parseProps lines) (str2l property_name) (str2l value)
      ({ st with props_files := dictInsert st.props_files name (writeProps props) }, true)
  else (st, false)

/-- Outcome of the artifact-acquisition step inside `create_server`
(server_manager.py lines 151-157), an external collaborator per spec §1:
`ok props` models a successful download, with `props` the content of the
`server.properties` file it leaves in the server directory (`none` when it
leaves no such file); `modpackFail msg` models
`download_curseforge_server` returning `(False, msg)`; `raised msg` models
an exception escaping the download (caught at line 167). -/
inductive DlOutcome where
  | ok (props : Option (List Line))
  | modpackFail (msg : String)
  | raised (msg : String)
deriving DecidableEq, Repr

/-- `create_server` (server_manager.py lines 124-170).  The body runs under
`async with self.lock`; `dl` is the outcome of the artifact step.  Note the
order of lines 159-165: `update_server_properties` is called before
`self.servers[name] = server`, so its `name not in self.servers` guard is
taken and the call returns `False` without touching the file. -/
def create_server (st : MState) (name version : String) (memory : Option Int)
    (modpack_url : Option String) (dl : DlOutcome) : MState × Bool × String :=
  if (alookup st.servers name).isSome then
    (st, false, "Server " ++ name ++ " already exists")
  else if st.max_concurrent ≤ runningCount st then
    (st, false, "Maximum concurrent servers reached")
  else
    match allocate_port st.port_min st.port_max st.allocated_ports with
    | none => (st, false, "No available ports in configured range")
    | some port =>
      let mem : Int :=
        match memory with
        | some m => if m = 0 then st.default_memory else m
        | none => st.default_memory
      let server : ServerConfig :=
        { name := name, version := version, memory := mem, port := port,
          modpack_url := modpack_url, server_file_url := none }
      match dl with
      | DlOutcome.modpackFail msg =>
        ({ st with allocated_ports := release_port st.allocated_ports port }, false,
          msg ++ " - please run the command again with the direct server pack URL")
      | DlOutcome.raised msg =>
        ({ st with allocated_ports := release_port st.allocated_ports port }, false,
          "Failed to create server: " ++ msg)
      | DlOutcome.ok props =>
        let st1 :=
          match props with
          | some content => { st with props_files := dictInsert st.props_files name content }
          | none => st
        let st2 :=
          if (alookup st1.props_files name).isSome then
            (update_server_properties st1 name "server-port" (toString port)).1
          else st1
        let st3 :=
          { st2 with
            servers := dictInsert st2.servers name server,
            allocated_ports := dictInsert st2.allocated_ports port name }
        (save_server_states st3, true,
          "Server " ++ name ++ " created successfully")

/-- The segment of `start_server` up to the spawn (server_manager.py lines
252-267): record the pid, set status STARTING, record `last_started`, and
persist; `pid` and `now` stand for `process.pid` and `time.time()`.
Preconditions (lines 230-235) are checked by `start_server` below. -/
def start_spawned (st : MState) (name : String) (pid : Int) (now : Rat) : MState :=
  match alookup st.servers name with
  | none => st
  | some server =>
    save_server_states
      { st with
        servers := dictInsert st.servers name
          { server with pid := some pid, status := ServerStatus.STARTING,
                        last_started := some now } }

/-- The segment of `start_server` after `await asyncio.sleep(5)`
(server_manager.py lines 269-279): `early = some errout` models the
process having exited within the confirmation window with captured error
output `errout`; `none` models a live process. -/
def start_confirm (st : MState) (name : String) (early : Option String) :
    MState × Bool × String :=
  match alookup st.servers name with
  | none => (st, false, "Server " ++ name ++ " does not exist")
  | some server =>
    match early with
    | some errout =>
      (save_server_states
        { st with
          servers := dictInsert st.servers name
            { server with status := ServerStatus.CRASHED,
                          crash_count := server.crash_count + 1 } },
        false, "Server failed to start: " ++ errout)
    | none =>
      (save_server_states
        { st with
          servers := dictInsert st.servers name
            { server with status := ServerStatus.RUNNING } },
        true, "Server " ++ name ++ " started")

/-- `start_server` (server_manager.py lines 229-279) with no other task
interleaved during the confirmation sleep: precondition checks, then the
spawn segment, then the confirmation segment. -/
def start_server (st : MState) (name : String) (pid : Int) (now : Rat)
    (early : Option String) : MState × Bool × String :=
  match alookup st.servers name with
  | none => (st, false, "Server " ++ name ++ " does not exist")
  | some server =>
    if server.status = ServerStatus.RUNNING then
      (st, false, "Server " ++ name ++ " is already running")
    else
      start_confirm (start_spawned st name pid now) name early

/-- One wake-up of the `monitor_server` loop (server_manager.py lines
290-298): `exited = true` models `process.returncode is not None`, upon
which the loop sets status CRASHED, increments `crash_count`, persists and
breaks.  The loop has no guard on the current status and is never
cancelled by `stop_server` or by a crashed `start_server`. -/
def monitor_step (st : MState) (name : String) (exited : Bool) : MState :=
  if exited then
    match alookup st.servers name with
    | none => st
    | some server =>
      save_server_states
        { st with
          servers := dictInsert st.servers name
            { server with status := ServerStatus.CRASHED,
                          crash_count := server.crash_count + 1 } }
  else st

/-- `stop_server` (server_manager.py lines 306-328): fail when the name is
unknown or the status is not RUNNING; otherwise terminate the process
(external), set status STOPPED, clear the pid, persist. -/
def stop_server (st : MState) (name : String) : MState × Bool × String :=
  match alookup st.servers name with
  | none => (st, false, "Server " ++ name ++ " does not exist")
  | some server =>
    if server.status = ServerStatus.RUNNING then
      (save_server_states
        { st with
          servers := dictInsert st.servers name
            { server with status := ServerStatus.STOPPED, pid := none } },
        true, "Server " ++ name ++ " stopped")
    else (st, false, "Server " ++ name ++ " is not running")

/-- `restart_server` (server_manager.py lines 330-335): stop, and when the
stop failed return its failure; otherwise (after the settle sleep) start.
No field of the descriptor is touched by this function itself; in
particular no line of it mentions `restart_count`. -/
def restart_server (st : MState) (name : String) (pid : Int) (now : Rat)
    (early : Option String) : MState × Bool × String :=
  let r := stop_server st name
  if r.2.1 then start_server r.1 name pid now early
  else (r.1, false, r.2.2)

/-- The observable contents of the state file over one call of
`save_server_states` (server_manager.py lines 82-86): `open(state_file, 'w')`
truncates the file to empty, then `json.dump` streams the new text into it;
a reader (or a crash) can observe the previous content, the empty file at
truncation, or the new content.  No temporary file or rename is involved. -/
def save_observable_contents (old new : List Char) : List (List Char) :=
  [old, [], new]

/-- The atomic-replace discipline of spec §4.2: every observable content of
the file during a save is either the old content or the new content. -/
def atomic_replace_ok (old new : List Char) (obs : List (List Char)) : Bool :=
  obs.all (fun s => decide (s = old ∨ s = new))

/-- Atomic steps of a mutating Lifecycle Manager operation, for the lock
analysis of spec §5: lock acquisition/release (`async with self.lock`),
reading the descriptor map, mutating the descriptor map, consulting or
updating the port table, persisting via `save_server_states`, and an await
suspension point where other tasks may run. -/
inductive FleetAction where
  | lockAcquire
  | lockRelease
  | readDescriptors
  | mutateDescriptors
  | allocatePortA
  | releasePortA
  | persist
  | awaitPoint
deriving DecidableEq, Repr

/-- Action trace of the success path of `create_server` (server_manager.py
lines 124-166): the whole body runs inside `async with self.lock`. -/
def create_server_trace : List FleetAction :=
  [FleetAction.lockAcquire, FleetAction.readDescriptors, FleetAction.allocatePortA,
   FleetAction.awaitPoint, FleetAction.mutateDescriptors, FleetAction.persist,
   FleetAction.lockRelease]

/-- Action trace of the success path of `start_server` (server_manager.py
lines 229-279): no `async with self.lock` appears in the function; it reads
the descriptor map, mutates the descriptor and persists, suspends for the
confirmation window, then mutates and persists again. -/
def start_server_trace : List FleetAction :=
  [FleetAction.readDescriptors, FleetAction.mutateDescriptors, FleetAction.persist,
   FleetAction.awaitPoint, FleetAction.mutateDescriptors, FleetAction.persist]

/-- Action trace of the success path of `stop_server` (server_manager.py
lines 306-328): no lock; read, suspend for the grace period, mutate,
persist. -/
def stop_server_trace : List FleetAction :=
  [FleetAction.readDescriptors, FleetAction.awaitPoint,
   FleetAction.mutateDescriptors, FleetAction.persist]

/-- Action trace of `restart_server` (server_manager.py lines 330-335):
the stop trace, the settle sleep, then the start trace; no lock. -/
def restart_server_trace : List FleetAction :=
  stop_server_trace ++ FleetAction.awaitPoint :: start_server_trace

/-- Action trace of `delete_server` (server_manager.py lines 337-361): no
lock; read, possibly stop (a suspension), release the port, remove the
descriptor, persist. -/
def delete_server_trace : List FleetAction :=
  [FleetAction.readDescriptors, FleetAction.awaitPoint, FleetAction.releasePortA,
   FleetAction.mutateDescriptors, FleetAction.persist]

/-- Action trace of one crash detection by `monitor_server`
(server_manager.py lines 281-298): no lock; read the maps, wait on the
polling interval, mutate the descriptor and persist. -/
def monitor_server_trace : List FleetAction :=
  [FleetAction.readDescriptors, FleetAction.awaitPoint,
   FleetAction.mutateDescriptors, FleetAction.persist]

/-- Scan a trace carrying the current lock depth; every descriptor read or
mutation, port-table operation, and persist must happen at positive depth
for the trace to count as guarded by the mutual-exclusion lock. -/
def lockedAt : List FleetAction → Nat → Bool
  | [], _ => true
  | a :: rest, depth =>
    match a with
    | FleetAction.lockAcquire => lockedAt rest (depth + 1)
    | FleetAction.lockRelease => lockedAt rest (depth - 1)
    | FleetAction.awaitPoint => lockedAt rest depth
    | _ => decide (0 < depth) && lockedAt rest depth

/-- A trace is lock-guarded when its whole
read / allocate-or-release / mutate / persist sequence runs while the
mutual-exclusion lock is held. -/
def lockGuarded (tr : List FleetAction) : Bool := lockedAt tr 0

/-- The six mutating-operation traces named by spec §5. -/
def mutating_op_traces : List (List FleetAction) :=
  [create_server_trace, start_server_trace, stop_server_trace,
   restart_server_trace, delete_server_trace, monitor_server_trace]

/-- JSON values as produced by `json.dump` / consumed by `json.load` for
the state file: null, strings, ints, floats (modelled as rationals, which
`json` round-trips exactly), and objects. -/
inductive JVal where
  | jnull
  | jstr (s : String)
  | jint (n : Int)
  | jnum (q : Rat)
  | jobj (fields : List (String × JVal))

/-- Serialization of an `Optional[str]` field by `asdict` + `json.dump`. -/
def optStrJ : Option String → JVal
  | none => JVal.jnull
  | some s => JVal.jstr s

/-- Serialization of an `Optional[int]` field. -/
def optIntJ : Option Int → JVal
  | none => JVal.jnull
  | some n => JVal.jint n

/-- Serialization of an `Optional[float]` field. -/
def optNumJ : Option Rat → JVal
  | none => JVal.jnull
  | some q => JVal.jnum q

/-- `dataclasses.asdict(server)` (server_manager.py line 84): the field
dictionary of a `ServerConfig`, in declaration order. -/
def server_asdict (s : ServerConfig) : List (String × JVal) :=
  [("name", JVal.jstr s.name), ("version", JVal.jstr s.version),
   ("memory", JVal.jint s.memory), ("port", JVal.jint s.port),
   ("modpack_url", optStrJ s.modpack_url),
   ("server_file_url", optStrJ s.server_file_url),
   ("status", JVal.jstr s.status), ("pid", optIntJ s.pid),
   ("last_started", optNumJ s.last_started),
   ("restart_count", JVal.jint s.restart_count),
   ("crash_count", JVal.jint s.crash_count)]

/-- The JSON value written by `save_server_states` (server_manager.py lines
82-86): an object mapping each server name to `asdict(server)`. -/
def save_states_json (servers : List (String × ServerConfig)) : JVal :=
  JVal.jobj (servers.map (fun e => (e.1, JVal.jobj (server_asdict e.2))))

/-- Decode a JSON string. -/
def jStr? : JVal → Option String
  | JVal.jstr s => some s
  | _ => none

/-- Decode a JSON int. -/
def jInt? : JVal → Option Int
  | JVal.jint n => some n
  | _ => none

/-- Decode a JSON value into an `Optional[str]` field. -/
def jOptStr? : JVal → Option (Option String)
  | JVal.jnull => some none
  | JVal.jstr s => some (some s)
  | _ => none

/-- Decode a JSON value into an `Optional[int]` field. -/
def jOptInt? : JVal → Option (Option Int)
  | JVal.jnull => some none
  | JVal.jint n => some (some n)
  | _ => none

/-- Decode a JSON value into an `Optional[float]` field. -/
def jOptNum? : JVal → Option (Option Rat)
  | JVal.jnull => some none
  | JVal.jnum q => some (some q)
  | _ => none

/-- Decode an optional dataclass field: a missing key takes the dataclass
default, a present key must decode (`ServerConfig(**data)`). -/
def fieldOr {α : Type} (d : List (String × JVal)) (k : String)
    (dec : JVal → Option α) (dflt : α) : Option α :=
  match alookup d k with
  | none => some dflt
  | some j => dec j

/-- `ServerConfig(**data)` (server_manager.py line 77): rebuild a
descriptor from its field dictionary; the three fields without defaults
must be present, the rest fall back to the dataclass defaults. -/
def serverConfig_ofDict (d : List (String × JVal)) : Option ServerConfig := do
  let name ← (alookup d "name").bind jStr?
  let version ← (alookup d "version").bind jStr?
  let memory ← (alookup d "memory").bind jInt?
  let port ← fieldOr d "port" jInt? 25565
  let modpack_url ← fieldOr d "modpack_url" jOptStr? none
  let server_file_url ← fieldOr d "server_file_url" jOptStr? none
  let status ← fieldOr d "status" jStr? ServerStatus.STOPPED
  let pid ← fieldOr d "pid" jOptInt? none
  let last_started ← fieldOr d "last_started" jOptNum? none
  let restart_count ← fieldOr d "restart_count" jInt? 0
  let crash_count ← fieldOr d "crash_count" jInt? 0
  pure { name := name, version := version, memory := memory, port := port,
         modpack_url := modpack_url, server_file_url := server_file_url,
         status := status, pid := pid, last_started := last_started,
         restart_count := restart_count, crash_count := crash_count }

/-- One iteration of the load loop (server_manager.py lines 76-78): build
`ServerConfig(**data)` from the entry and assign `self.servers[name] = server`. -/
def load_states_step (acc : List (String × ServerConfig)) (e : String × JVal) :
    Option (List (String × ServerConfig)) :=
  match e.2 with
  | JVal.jobj d =>
    match serverConfig_ofDict d with
    | some cfg => some (dictInsert acc e.1 cfg)
    | none => none
  | _ => none

/-- `load_server_states` (server_manager.py lines 71-80), on an existing
state file holding the JSON value `j`: for each entry build
`ServerConfig(**data)` and assign `self.servers[name] = server` in order
(`self.servers` starts empty at manager construction). -/
def load_states_json (j : JVal) : Option (List (String × ServerConfig)) :=
  match j with
  | JVal.jobj entries => entries.foldlM load_states_step []
  | _ => none

/-- `allocate_port` viewed as an operation on the manager state
(server_manager.py lines 88-92): the body only reads `self.port_min`,
`self.port_max` and `self.allocated_ports` and contains no assignment, so
its effect on the state is the identity. -/
def allocate_port_op (st : MState) : MState × Option Int :=
  (st, allocate_port st.port_min st.port_max st.allocated_ports)

theorem alookup_dictInsert_self {α β : Type} [DecidableEq α]
    (l : List (α × β)) (k : α) (v : β) :
    alookup (dictInsert l k v) k = some v := by
  induction l with
  | nil => simp [dictInsert, alookup]
  | cons e rest ih =>
    by_cases h : e.1 = k
    · simp [dictInsert, h, alookup]
    · simp [dictInsert, h, alookup, ih]

/-- The property the claim about `update_server_properties` states of the
rewritten file: every `key=value` assignment of the old file whose key is
not the updated key reappears, with the same key and value, as an
assignment of the new file. -/
def assignment_preserved (oldLines newLines : List Line) (key : Line) : Bool :=
  oldLines.all (fun l =>
    match parsePropLine l with
    | some kv =>
      if kv.1 = key then true
      else newLines.any (fun l2 => decide (parsePropLine l2 = some kv))
    | none => true)

/-- A fresh manager state: no servers, no claimed ports, no files. -/
def stCreate : MState :=
  { servers := [], allocated_ports := [], props_files := [], saved_states := none,
    port_min := 25565, port_max := 25575, max_concurrent := 5, default_memory := 2048 }

/-- A stopped descriptor used in the lifecycle scenarios. -/
def cfgStoppedA : ServerConfig :=
  { name := "alpha", version := "1.20.1", memory := 2048, port := 25565 }

/-- A running descriptor used in the lifecycle scenarios. -/
def cfgRunningB : ServerConfig :=
  { name := "beta", version := "1.20.1", memory := 2048, port := 25566,
    status := ServerStatus.RUNNING, pid := some 41, last_started := some 100,
    restart_count := 3 }

/-- A manager state with a stopped server alpha and a running server beta. -/
def stLifecycle : MState :=
  { servers := [("alpha", cfgStoppedA), ("beta", cfgRunningB)],
    allocated_ports := [(25566, "beta")],
    props_files := [], saved_states := none,
    port_min := 25565, port_max := 25575, max_concurrent := 4, default_memory := 2048 }

/-- A manager state whose server gamma has a properties file with a
duplicated key `a` and a key `b`. -/
def stProps : MState :=
  { servers := [("gamma",
      { name := "gamma", version := "1.20.1", memory := 2048, port := 25567 })],
    allocated_ports := [],
    props_files := [("gamma", [str2l "a=1", str2l "a=2", str2l "b=3"])],
    saved_states := none, port_min := 25565, port_max := 25575,
    max_concurrent := 4, default_memory := 2048 }

/-- A two-server fleet exercising every `ServerConfig` field. -/
def fleetW : List (String × ServerConfig) :=
  [("alpha", { name := "alpha", version := "1.20.1", memory := 2048, port := 25565 }),
   ("beta", { name := "beta", version := "1.19", memory := 4096, port := 25566,
              modpack_url := some "modpack", server_file_url := some "fileurl",
              status := ServerStatus.RUNNING, pid := some 41,
              last_started := some 1700000000, restart_count := 2, crash_count := 1 })]

theorem akeys_cons {α β : Type} (e : α × β) (l : List (α × β)) :
    akeys (e :: l) = e.1 :: akeys l := rfl

theorem alookup_dictInsert_ne {α β : Type} [DecidableEq α]
    (l : List (α × β)) (k k' : α) (v : β) (h : k' ≠ k) :
    alookup (dictInsert l k v) k' = alookup l k' := by
  have hk : ¬ k = k' := fun hh => h hh.symm
  induction l with
  | nil => simp [dictInsert, alookup, hk]
  | cons e rest ih =>
    by_cases he : e.1 = k
    · have he' : ¬ e.1 = k' := by rw [he]; exact hk
      simp [dictInsert, he, alookup, he', hk, h]
    · by_cases he2 : e.1 = k'
      · simp [dictInsert, he, alookup, he2, hk, h]
      · simp [dictInsert, he, alookup, he2, ih]

theorem dictInsert_not_mem {α β : Type} [DecidableEq α]
    (l : List (α × β)) (k : α) (v : β) (h : k ∉ akeys l) :
    dictInsert l k v = l ++ [(k, v)] := by
  induction l with
  | nil => simp [dictInsert]
  | cons e rest ih =>
    rw [akeys_cons] at h
    simp at h
    have he : ¬ e.1 = k := fun hh => h.1 hh.symm
    simp [dictInsert, he]
    exact ih h.2

theorem akeys_dictInsert {α β : Type} [DecidableEq α]
    (l : List (α × β)) (k : α) (v : β) :
    akeys (dictInsert l k v) =
      if k ∈ akeys l then akeys l else akeys l ++ [k] := by
  induction l with
  | nil => simp [dictInsert, akeys]
  | cons e rest ih =>
    by_cases he : e.1 = k
    · have hm : k ∈ akeys (e :: rest) := by
        rw [akeys_cons, he]
        exact List.mem_cons_self _ _
      simp [dictInsert, he, akeys_cons, hm]
    · have hke : ¬ k = e.1 := fun hh => he hh.symm
      by_cases hm : k ∈ akeys rest
      · have hm2 : k ∈ akeys (e :: rest) := by
          rw [akeys_cons]
          exact List.mem_cons_of_mem _ hm
        simp [dictInsert, he, akeys_cons, ih, hm, hm2]
      · have hm2 : k ∉ akeys (e :: rest) := by
          rw [akeys_cons]
          simp [hke, hm]
        simp [dictInsert, he, akeys_cons, ih, hm, hm2, hke]

theorem claimed_iff_mem (tbl : List (Int × String)) (p : Int) :
    claimed tbl p = true ↔ p ∈ akeys tbl := by
  simp [claimed, akeys, List.any_eq_true]

theorem claimed_filter_ne (tbl : List (Int × String)) (p : Int) :
    claimed (tbl.filter (fun e => e.1 != p)) p = false := by
  induction tbl with
  | nil => rfl
  | cons e rest ih =>
    by_cases he : e.1 = p
    · have h2 : (e.1 != p) = false := by simp [he]
      rw [List.filter_cons, h2]
      simpa using ih
    · have h2 : (e.1 != p) = true := by simp [he]
      rw [List.filter_cons, h2]
      simp [claimed] at ih ⊢
      exact he

theorem claimed_release_self (tbl : List (Int × String)) (p : Int) :
    claimed (release_port tbl p) p = false := by
  unfold release_port
  cases hc : claimed tbl p with
  | false => simp [hc]
  | true => simp [hc, claimed_filter_ne]

theorem release_unclaimed (tbl : List (Int × String)) (p : Int)
    (h : claimed tbl p = false) : release_port tbl p = tbl := by
  simp [release_port, h]

theorem claimed_dictInsert_self (tbl : List (Int × String)) (p : Int) (n : String) :
    claimed (dictInsert tbl p n) p = true := by
  rw [claimed_iff_mem, akeys_dictInsert]
  by_cases h : p ∈ akeys tbl <;> simp [h]

theorem allocFrom_sound (tbl : List (Int × String)) :
    ∀ (k : Nat) (p q : Int), allocFrom tbl p k = some q →
      p ≤ q ∧ q < p + k ∧ claimed tbl q = false ∧
        ∀ r : Int, p ≤ r → r < q → claimed tbl r = true := by
  intro k
  induction k with
  | zero => intro p q h; simp [allocFrom] at h
  | succ k ih =>
    intro p q h
    cases hc : claimed tbl p with
    | true =>
      rw [allocFrom, hc] at h
      simp at h
      obtain ⟨h1, h2, h3, h4⟩ := ih (p + 1) q h
      refine ⟨by omega, by omega, h3, ?_⟩
      intro r hr1 hr2
      by_cases hr : r = p
      · rw [hr]; exact hc
      · exact h4 r (by omega) hr2
    | false =>
      rw [allocFrom, hc] at h
      simp at h
      subst h
      exact ⟨le_refl p, by omega, hc, fun r hr1 hr2 => absurd hr1 (by omega)⟩

theorem allocFrom_none (tbl : List (Int × String)) :
    ∀ (k : Nat) (p : Int),
      (∀ r : Int, p ≤ r → r < p + k → claimed tbl r = true) →
      allocFrom tbl p k = none := by
  intro k
  induction k with
  | zero => intro p _; simp [allocFrom]
  | succ k ih =>
    intro p h
    have hp : claimed tbl p = true := h p (le_refl p) (by omega)
    rw [allocFrom, hp]
    simp
    exact ih (p + 1) (fun r hr1 hr2 => h r (by omega) (by omega))

theorem allocFrom_complete (tbl : List (Int × String)) :
    ∀ (k : Nat) (p q : Int), claimed tbl q = false → p ≤ q → q < p + k →
      (∀ r : Int, p ≤ r → r < q → claimed tbl r = true) →
      allocFrom tbl p k = some q := by
  intro k
  induction k with
  | zero => intro p q _ h1 h2 _; omega
  | succ k ih =>
    intro p q hq h1 h2 h3
    cases hc : claimed tbl p with
    | true =>
      have hpq : p ≠ q := fun hh => by rw [hh] at hc; rw [hc] at hq; cases hq
      rw [allocFrom, hc]
      simp
      exact ih (p + 1) q hq (by omega) (by omega)
        (fun r hr1 hr2 => h3 r (by omega) hr2)
    | false =>
      have hpq : p = q := by
        by_contra hne
        have := h3 p (le_refl p) (by omega)
        rw [this] at hc
        cases hc
      rw [allocFrom, hc]
      simp [hpq]

theorem allocate_port_sound (pmin pmax : Int) (tbl : List (Int × String)) (p : Int)
    (h : allocate_port pmin pmax tbl = some p) :
    pmin ≤ p ∧ p ≤ pmax ∧ claimed tbl p = false ∧
      ∀ q : Int, pmin ≤ q → q < p → claimed tbl q = true := by
  obtain ⟨h1, h2, h3, h4⟩ := allocFrom_sound tbl (pmax + 1 - pmin).toNat pmin p h
  exact ⟨h1, by omega, h3, h4⟩

theorem allocate_port_exhausted (pmin pmax : Int) (tbl : List (Int × String))
    (h : ∀ q : Int, pmin ≤ q → q ≤ pmax → claimed tbl q = true) :
    allocate_port pmin pmax tbl = none :=
  allocFrom_none tbl _ pmin (fun r hr1 hr2 => h r hr1 (by omega))

theorem allocate_port_complete (pmin pmax : Int) (tbl : List (Int × String)) (p : Int)
    (hc : claimed tbl p = false) (h1 : pmin ≤ p) (h2 : p ≤ pmax)
    (h3 : ∀ q : Int, pmin ≤ q → q < p → claimed tbl q = true) :
    allocate_port pmin pmax tbl = some p :=
  allocFrom_complete tbl _ pmin p hc h1 (by omega) h3

theorem jOptStr_roundtrip (x : Option String) : jOptStr? (optStrJ x) = some x := by
  cases x <;> rfl

theorem jOptInt_roundtrip (x : Option Int) : jOptInt? (optIntJ x) = some x := by
  cases x <;> rfl

theorem jOptNum_roundtrip (x : Option Rat) : jOptNum? (optNumJ x) = some x := by
  cases x <;> rfl

theorem serverConfig_ofDict_asdict (s : ServerConfig) :
    serverConfig_ofDict (server_asdict s) = some s := by
  cases s with
  | mk name version memory port modpack_url server_file_url status pid ls rc cc =>
    cases modpack_url <;> cases server_file_url <;> cases pid <;> cases ls <;> rfl

theorem load_save_aux (l : List (String × ServerConfig)) :
    ∀ acc : List (String × ServerConfig),
      (∀ e ∈ l, e.1 ∉ akeys acc) → (akeys l).Nodup →
      (l.map (fun e => (e.1, JVal.jobj (server_asdict e.2)))).foldlM load_states_step acc
        = some (acc ++ l) := by
  induction l with
  | nil => intro acc _ _; simp
  | cons e rest ih =>
    intro acc hdisj hnodup
    rw [akeys_cons, List.nodup_cons] at hnodup
    rw [List.map_cons, List.foldlM_cons]
    have hstep : load_states_step acc (e.1, JVal.jobj (server_asdict e.2))
        = some (acc ++ [e]) := by
      rw [load_states_step]
      simp only [serverConfig_ofDict_asdict]
      rw [dictInsert_not_mem _ _ _ (hdisj e (List.mem_cons_self _ _))]
    rw [hstep]
    have hrest : ∀ e2 ∈ rest, e2.1 ∉ akeys (acc ++ [e]) := by
      intro e2 he2 hmem
      have h1 : e2.1 ∉ akeys acc := hdisj e2 (List.mem_cons_of_mem _ he2)
      have h2 : e2.1 ≠ e.1 := by
        intro hh
        exact hnodup.1 (hh ▸ List.mem_map_of_mem Prod.fst he2)
      rw [akeys, List.map_append] at hmem
      rcases List.mem_append.mp hmem with hmem1 | hmem2
      · exact h1 hmem1
      · simp at hmem2
        exact h2 hmem2
    have hih := ih (acc ++ [e]) hrest hnodup.2
    show (rest.map _).foldlM load_states_step (acc ++ [e]) = _
    rw [hih]
    simp

/-- C8: for every fleet mapping of names to descriptors (names unique,
as they are for a Python dict), save followed by load reproduces the
identical descriptor set: every `ServerConfig` attribute round-trips
exactly through the persisted state file. -/
theorem save_load_roundtrip (servers : List (String × ServerConfig))
    (h : (akeys servers).Nodup) :
    load_states_json (save_states_json servers) = some servers := by
  rw [save_states_json, load_states_json]
  have := load_save_aux servers [] (fun e _ => by simp [akeys]) h
  simpa using this

/-- C5: for every state of the allocation table, `allocate_port` returns
the lowest port in [port_min, port_max] not currently claimed and returns
none when all ports in the range are claimed; it never returns a port
outside the range; after `release_port p` a subsequent `allocate_port` can
return `p` again; and `release_port` on an unclaimed port is a no-op that
leaves the table unchanged. -/
theorem allocate_release_correct (pmin pmax p : Int) (tbl : List (Int × String)) :
    (allocate_port pmin pmax tbl = some p →
      pmin ≤ p ∧ p ≤ pmax ∧ claimed tbl p = false ∧
        ∀ q : Int, pmin ≤ q → q < p → claimed tbl q = true)
    ∧ ((∀ q : Int, pmin ≤ q → q ≤ pmax → claimed tbl q = true) →
        allocate_port pmin pmax tbl = none)
    ∧ (pmin ≤ p → p ≤ pmax →
        (∀ q : Int, pmin ≤ q → q < p → claimed (release_port tbl p) q = true) →
        allocate_port pmin pmax (release_port tbl p) = some p)
    ∧ (claimed tbl p = false → release_port tbl p = tbl) := by
  refine ⟨fun h => allocate_port_sound pmin pmax tbl p h,
          fun h => allocate_port_exhausted pmin pmax tbl h,
          fun h1 h2 h3 =>
            allocate_port_complete pmin pmax _ p (claimed_release_self tbl p) h1 h2 h3,
          fun h => release_unclaimed tbl p h⟩

/-- Witness for C5: with ports 100 and 101 claimed in range [100, 102],
releasing 101 lets the allocator return 101 again (the lowest free port). -/
theorem allocate_release_correct_witness :
    allocate_port 100 102 (release_port [((100 : Int), "a"), (101, "b")] 101) = some 101 :=
  (allocate_release_correct 100 102 101 [(100, "a"), (101, "b")]).2.2.1
    (by decide) (by decide)
    (by
      intro q h1 h2
      have hq : q = 100 := by omega
      rw [hq]
      decide)

/-- C10: `allocate_port` never mutates the port table: it is a pure query
whose effect on the manager state is the identity, so two consecutive calls
with no intervening table update return the same port; a returned port is
not claimed at return time and becomes claimed only once the caller
records it in the table with `self.allocated_ports[port] = name`. -/
theorem allocate_port_pure (st : MState) :
    (allocate_port_op st).1 = st
    ∧ (allocate_port_op (allocate_port_op st).1).2 = (allocate_port_op st).2
    ∧ ∀ (p : Int) (n : String), (allocate_port_op st).2 = some p →
        claimed st.allocated_ports p = false ∧
          claimed (dictInsert st.allocated_ports p n) p = true := by
  refine ⟨rfl, rfl, fun p n h => ?_⟩
  have hs := allocate_port_sound st.port_min st.port_max st.allocated_ports p h
  exact ⟨hs.2.2.1, claimed_dictInsert_self _ _ _⟩

/-- Witness for C10: on the fresh state the allocator returns 25565, which
is unclaimed until recorded by the caller. -/
theorem allocate_port_pure_witness :
    claimed stCreate.allocated_ports 25565 = false ∧
      claimed (dictInsert stCreate.allocated_ports 25565 "alpha") 25565 = true :=
  (allocate_port_pure stCreate).2.2 25565 "alpha" (by decide)

/-- C3: when create's precondition checks pass but the artifact acquisition
step fails (mod-pack failure result or an exception from either download
path), `create_server` returns a failure and leaves the descriptor map and
the port allocation table exactly as they were; the released port was never
recorded, so the release is a no-op. -/
theorem create_server_artifact_failure_rollback
    (st : MState) (name version : String) (memory : Option Int)
    (modpack_url : Option String) (dl : DlOutcome)
    (h1 : (alookup st.servers name).isSome = false)
    (h2 : runningCount st < st.max_concurrent)
    (h3 : ∀ props, dl ≠ DlOutcome.ok props) :
    (create_server st name version memory modpack_url dl).1.servers = st.servers
    ∧ (create_server st name version memory modpack_url dl).1.allocated_ports
        = st.allocated_ports
    ∧ (create_server st name version memory modpack_url dl).2.1 = false := by
  unfold create_server
  rw [h1]
  simp only [Bool.false_eq_true, if_false]
  rw [if_neg (not_le.mpr h2)]
  cases halloc : allocate_port st.port_min st.port_max st.allocated_ports with
  | none => exact ⟨rfl, rfl, rfl⟩
  | some port =>
    have hfree : claimed st.allocated_ports port = false :=
      (allocate_port_sound _ _ _ _ halloc).2.2.1
    cases dl with
    | ok props => exact absurd rfl (h3 props)
    | modpackFail msg => exact ⟨rfl, release_unclaimed _ _ hfree, rfl⟩
    | raised msg => exact ⟨rfl, release_unclaimed _ _ hfree, rfl⟩

/-- Witness for C3: a mod-pack resolution failure on the fresh state leaves
the (empty) descriptor map and port table untouched and reports failure. -/
theorem create_server_artifact_failure_rollback_witness :
    (create_server stCreate "alpha" "1.20.1" none (some "modpack")
        (DlOutcome.modpackFail "Could not find server pack")).1.servers
      = stCreate.servers
    ∧ (create_server stCreate "alpha" "1.20.1" none (some "modpack")
        (DlOutcome.modpackFail "Could not find server pack")).1.allocated_ports
      = stCreate.allocated_ports
    ∧ (create_server stCreate "alpha" "1.20.1" none (some "modpack")
        (DlOutcome.modpackFail "Could not find server pack")).2.1 = false :=
  create_server_artifact_failure_rollback stCreate "alpha" "1.20.1" none (some "modpack")
    (DlOutcome.modpackFail "Could not find server pack") (by decide) (by decide)
    (fun props h => by cases h)

/-- Witness for C8: the two-server fleet `fleetW`, which exercises every
field of `ServerConfig`, round-trips through save and load. -/
theorem save_load_roundtrip_witness :
    load_states_json (save_states_json fleetW) = some fleetW :=
  save_load_roundtrip fleetW (by decide)

/-- C1 counterexample: the claim that `save_server_states` replaces the
state file atomically (a reader never observes anything but the old or the
new content) is false: the in-place truncate-then-write of
`open(state_file, 'w')` + `json.dump` makes the truncated empty file
observable. -/
theorem save_server_states_not_atomic_cex :
    atomic_replace_ok (str2l "oldstate") (str2l "newstate")
      (save_observable_contents (str2l "oldstate") (str2l "newstate")) = false := by
  decide

/-- C1 (amended): `save_server_states` rewrites the state file in place
(truncate, then write); whenever the old and new contents are non-empty,
the truncated empty file is an observable intermediate state that is
neither of them, so the write is not an atomic replace. -/
theorem save_server_states_truncation_observable (old new : List Char)
    (h1 : old ≠ []) (h2 : new ≠ []) :
    [] ∈ save_observable_contents old new
    ∧ atomic_replace_ok old new (save_observable_contents old new) = false := by
  constructor
  · simp [save_observable_contents]
  · have hmid : ¬(([] : List Char) = old ∨ ([] : List Char) = new) := by
      rintro (hh | hh)
      · exact h1 hh.symm
      · exact h2 hh.symm
    simp [atomic_replace_ok, save_observable_contents, hmid]
    exact ⟨h1, h2⟩

/-- Witness for the amended C1 at concrete file contents. -/
theorem save_server_states_truncation_witness :
    [] ∈ save_observable_contents (str2l "oldstate") (str2l "newstate")
    ∧ atomic_replace_ok (str2l "oldstate") (str2l "newstate")
        (save_observable_contents (str2l "oldstate") (str2l "newstate")) = false :=
  save_server_states_truncation_observable (str2l "oldstate") (str2l "newstate")
    (by decide) (by decide)

/-- C2: starting the stopped server alpha whose process exits within the
confirmation window returns a failure carrying the captured error output
and sets status CRASHED, but `crash_count` does not increase by exactly 1
per crash: `start_server` increments it once and the still-running
`monitor_server` loop, which has no idempotence guard and is never
cancelled, increments it again for the same process exit; moreover a
requested stop of the running server beta, an expected exit, is later
observed by the monitor loop, which increments `crash_count` and
overwrites the STOPPED status with CRASHED. -/
theorem crash_count_double_increment :
    ((start_server stLifecycle "alpha" 7 0 (some "boot failure")).2.1 = false)
    ∧ ((start_server stLifecycle "alpha" 7 0 (some "boot failure")).2.2
        = "Server failed to start: boot failure")
    ∧ ((alookup (start_server stLifecycle "alpha" 7 0 (some "boot failure")).1.servers
          "alpha").map ServerConfig.status = some ServerStatus.CRASHED)
    ∧ ((alookup (start_server stLifecycle "alpha" 7 0 (some "boot failure")).1.servers
          "alpha").map ServerConfig.crash_count = some 1)
    ∧ ((alookup (monitor_step
          (start_server stLifecycle "alpha" 7 0 (some "boot failure")).1
          "alpha" true).servers "alpha").map ServerConfig.crash_count = some 2)
    ∧ ((stop_server stLifecycle "beta").2.1 = true)
    ∧ ((alookup (stop_server stLifecycle "beta").1.servers "beta").map
          ServerConfig.status = some ServerStatus.STOPPED)
    ∧ ((alookup (monitor_step (stop_server stLifecycle "beta").1 "beta" true).servers
          "beta").map ServerConfig.crash_count = some 1)
    ∧ ((alookup (monitor_step (stop_server stLifecycle "beta").1 "beta" true).servers
          "beta").map ServerConfig.status = some ServerStatus.CRASHED) := by
  decide

/-- C4: a successful create on a fresh manager, where the artifact step
leaves a `server.properties` file, persists a new STOPPED descriptor with
the allocated port 25565, but the properties file is left exactly as the
artifact step wrote it: no `server-port` key is applied, because
`create_server` calls `update_server_properties` before inserting the
descriptor into `self.servers`, so that call fails its NotFound guard and
writes nothing. -/
theorem create_server_port_not_applied :
    ((create_server stCreate "alpha" "1.20.1" none (some "modpack")
        (DlOutcome.ok (some [str2l "motd=hello"]))).2.1 = true)
    ∧ (alookup (create_server stCreate "alpha" "1.20.1" none (some "modpack")
        (DlOutcome.ok (some [str2l "motd=hello"]))).1.props_files "alpha"
        = some [str2l "motd=hello"])
    ∧ (alookup (parseProps [str2l "motd=hello"]) (str2l "server-port") = none)
    ∧ ((alookup (create_server stCreate "alpha" "1.20.1" none (some "modpack")
        (DlOutcome.ok (some [str2l "motd=hello"]))).1.servers "alpha").map
          ServerConfig.status = some ServerStatus.STOPPED)
    ∧ ((alookup (create_server stCreate "alpha" "1.20.1" none (some "modpack")
        (DlOutcome.ok (some [str2l "motd=hello"]))).1.servers "alpha").map
          ServerConfig.port = some 25565)
    ∧ ((create_server stCreate "alpha" "1.20.1" none (some "modpack")
        (DlOutcome.ok (some [str2l "motd=hello"]))).1.saved_states
        = some (create_server stCreate "alpha" "1.20.1" none (some "modpack")
            (DlOutcome.ok (some [str2l "motd=hello"]))).1.servers) := by
  decide

/-- C7: an explicit restart of the running server beta that stops it and
successfully starts a new process leaves `restart_count` unchanged at 3:
no code path of `restart_server` (or of anything else) ever increments it,
though the claim requires an increase by exactly 1. -/
theorem restart_count_unchanged_on_success :
    ((restart_server stLifecycle "beta" 9 10 none).2.1 = true)
    ∧ ((alookup (restart_server stLifecycle "beta" 9 10 none).1.servers "beta").map
          ServerConfig.status = some ServerStatus.RUNNING)
    ∧ ((alookup (restart_server stLifecycle "beta" 9 10 none).1.servers "beta").map
          ServerConfig.restart_count = some 3)
    ∧ ((alookup stLifecycle.servers "beta").map ServerConfig.restart_count = some 3) := by
  decide

/-- C9 counterexample: it is false that every mutating operation
(create, start, stop, restart, delete, monitor-driven crash update) runs
its read / allocate-or-release / mutate / persist sequence under the
mutual-exclusion lock. -/
theorem mutating_ops_not_all_locked_cex :
    mutating_op_traces.all lockGuarded = false := by decide

/-- C9 (amended): only `create_server` executes its sequence under
`async with self.lock`; `start_server`, `stop_server`, `restart_server`,
`delete_server` and the monitor's crash update mutate the descriptor map,
the port table and the persisted state without acquiring the lock. -/
theorem lock_usage_by_operation :
    lockGuarded create_server_trace = true
    ∧ lockGuarded start_server_trace = false
    ∧ lockGuarded stop_server_trace = false
    ∧ lockGuarded restart_server_trace = false
    ∧ lockGuarded delete_server_trace = false
    ∧ lockGuarded monitor_server_trace = false := by decide

/-- C6 counterexample: on server gamma's file `a=1`, `a=2`, `b=3`, updating
key `b` to `4` succeeds but the rewritten file is `a=2`, `b=4`: the
assignment `a=1` does not keep its value (duplicate assignments are
collapsed to the last value at the first occurrence position), so it is
false that every other `key=value` assignment keeps its original value. -/
theorem update_duplicate_assignment_dropped_cex :
    ((update_server_properties stProps "gamma" "b" "4").2 = true)
    ∧ (alookup (update_server_properties stProps "gamma" "b" "4").1.props_files "gamma"
        = some [str2l "a=2", str2l "b=4"])
    ∧ (parsePropLine (str2l "a=1") = some (str2l "a", str2l "1"))
    ∧ (assignment_preserved [str2l "a=1", str2l "a=2", str2l "b=3"]
        [str2l "a=2", str2l "b=4"] (str2l "b") = false) := by
  decide

/-- C6 (amended): `updateProperty` fails without writing when the server
does not exist or its configuration file does not exist; otherwise it
rewrites the file as the parsed key/value dict with the key's value
replaced (appended when absent): every other key keeps its effective
(last-assigned) value, the keys' first-occurrence relative order is
preserved, and a new key is appended at the end; duplicate assignments
are collapsed and comment lines are dropped by the rewrite. -/
theorem update_server_properties_correct (st : MState) (name key value : String) :
    ((alookup st.servers name).isSome = false →
      update_server_properties st name key value = (st, false))
    ∧ (alookup st.props_files name = none →
      update_server_properties st name key value = (st, false))
    ∧ ∀ lines : List Line, (alookup st.servers name).isSome = true →
        alookup st.props_files name = some lines →
        update_server_properties st name key value =
          ({ st with props_files := (dictInsert st.props_files name
              (writeProps (dictInsert (parseProps lines) (str2l key) (str2l value)))) },
            true)
        ∧ alookup (dictInsert (parseProps lines) (str2l key) (str2l value)) (str2l key)
            = some (str2l value)
        ∧ (∀ k : Line, k ≠ str2l key →
            alookup (dictInsert (parseProps lines) (str2l key) (str2l value)) k
              = alookup (parseProps lines) k)
        ∧ (str2l key ∈ akeys (parseProps lines) →
            akeys (dictInsert (parseProps lines) (str2l key) (str2l value))
              = akeys (parseProps lines))
        ∧ (str2l key ∉ akeys (parseProps lines) →
            akeys (dictInsert (parseProps lines) (str2l key) (str2l value))
              = akeys (parseProps lines) ++ [str2l key]) := by
  refine ⟨?_, ?_, ?_⟩
  · intro h
    unfold update_server_properties
    rw [h]
    simp
  · intro h
    unfold update_server_properties
    rw [h]
    cases hs : (alookup st.servers name).isSome <;> simp [hs]
  · intro lines hs hf
    unfold update_server_properties
    rw [hs, hf]
    refine ⟨rfl, alookup_dictInsert_self _ _ _,
            fun k hk => alookup_dictInsert_ne _ _ _ _ hk, ?_, ?_⟩
    · intro hm
      rw [akeys_dictInsert, if_pos hm]
    · intro hm
      rw [akeys_dictInsert, if_neg hm]

/-- Witness for the amended C6: updating key `b` on gamma's existing file
rewrites it to exactly the updated parsed dict. -/
theorem update_server_properties_correct_witness :
    update_server_properties stProps "gamma" "b" "4" =
      ({ stProps with props_files := (dictInsert stProps.props_files "gamma"
          (writeProps (dictInsert (parseProps [str2l "a=1", str2l "a=2", str2l "b=3"])
            (str2l "b") (str2l "4")))) }, true) :=
  ((update_server_properties_correct stProps "gamma" "b" "4").2.2
    [str2l "a=1", str2l "a=2", str2l "b=3"] (by decide) (by decide)).1
